import Mathlib

/-!
Verification of the token-construction and signing pipeline of
`scripts/dev_admin_token.py` (stateset-api).

The script is embedded shallowly:

* bytes are `List Nat` (each entry a byte value);
* Python `str` values appear either as Lean `String`s or as `List Char`
  (code points), with UTF-8 encoding made explicit by `utf8Bytes`;
* `json.dumps(obj, separators=(",", ":"), sort_keys=True)` is embedded by
  `jdump`, which serialises values compactly and emits each object's
  key/value pairs sorted by key (sorting the pairs after serialising the
  values is equivalent to sorting the keys first, since a value's
  serialisation does not depend on its position);
* `base64.urlsafe_b64encode(data).rstrip(b"=")` is embedded by `b64url`;
* `hmac.new(secret, msg, hashlib.sha256).digest()` is embedded by
  `hmacSha256`/`sha256`, a direct implementation of FIPS 180-4 and
  RFC 2104 (what `hashlib`/`hmac` compute);
* the environment is a lookup function `String → Option String`; the
  `config/default.toml` file is a `FileState` (absent, unreadable/invalid,
  or a present table whose values are modelled after Python's `str()`
  conversion has been applied, i.e. as strings);
* `main` is embedded by `runMain`, returning an `Outcome` recording the
  exit code together with the lines written to stdout and stderr, or the
  uncaught exception that escaped.
-/

/-- Code-point comparison of strings, as Python's `<` on `str` (used by
`sorted`, hence by `json.dumps(..., sort_keys=True)`). -/
def charListLt : List Char → List Char → Bool
  | [], [] => false
  | [], _ :: _ => true
  | _ :: _, [] => false
  | a :: as, b :: bs =>
      if a.toNat < b.toNat then true
      else if b.toNat < a.toNat then false
      else charListLt as bs

/-- String comparison via code points. -/
def strLt (a b : String) : Bool := charListLt a.toList b.toList

/-- The URL-safe base64 alphabet (RFC 4648 §5), used by
`base64.urlsafe_b64encode`. -/
def b64Alphabet : List Char :=
  "ABCDEFGHIJKLMNOPQRSTUVWXYZabcdefghijklmnopqrstuvwxyz0123456789-_".toList

/-- Character for a 6-bit group. -/
def b64char (n : Nat) : Char := b64Alphabet.getD n 'A'

/-- `b64url(data) = base64.urlsafe_b64encode(data).rstrip(b"=")`
(script lines 100-101): URL-safe base64 with the trailing `=` padding
stripped, so a trailing byte yields two characters and a trailing pair of
bytes yields three. -/
def b64url : List Nat → List Char
  | [] => []
  | [a] => [b64char (a / 4), b64char (a % 4 * 16)]
  | [a, b] => [b64char (a / 4), b64char (a % 4 * 16 + b / 16), b64char (b % 16 * 4)]
  | a :: b :: c :: rest =>
      b64char (a / 4) :: b64char (a % 4 * 16 + b / 16) ::
      b64char (b % 16 * 4 + c / 64) :: b64char (c % 64) :: b64url rest

/-- Index of a character in the base64 alphabet. -/
def b64val (c : Char) : Nat := b64Alphabet.indexOf c

/-- Decoder for unpadded URL-safe base64 (inverse of `b64url` on valid
input; used to state what "decoding a segment" of the token yields). -/
def b64urlDecode : List Char → List Nat
  | [] => []
  | [_] => []
  | [c1, c2] => [b64val c1 * 4 + b64val c2 / 16]
  | [c1, c2, c3] =>
      [b64val c1 * 4 + b64val c2 / 16, b64val c2 % 16 * 16 + b64val c3 / 4]
  | c1 :: c2 :: c3 :: c4 :: rest =>
      (b64val c1 * 4 + b64val c2 / 16) ::
      (b64val c2 % 16 * 16 + b64val c3 / 4) ::
      (b64val c3 % 4 * 64 + b64val c4) :: b64urlDecode rest

/-- Split a character list at `'.'` separators (the token's segment
structure; `"a.b.c".split "."` in Python terms). -/
def splitDots : List Char → List (List Char)
  | [] => [[]]
  | c :: rest =>
      let r := splitDots rest
      if c = '.' then [] :: r
      else (c :: r.headD []) :: r.tail

/-- UTF-8 encoding of one code point (Python `str.encode()`). -/
def utf8Char (c : Char) : List Nat :=
  let n := c.toNat
  if n < 128 then [n]
  else if n < 2048 then [192 + n / 64, 128 + n % 64]
  else if n < 65536 then [224 + n / 4096, 128 + n / 64 % 64, 128 + n % 64]
  else [240 + n / 262144, 128 + n / 4096 % 64, 128 + n / 64 % 64, 128 + n % 64]

/-- UTF-8 encoding of a character list. -/
def utf8Bytes : List Char → List Nat
  | [] => []
  | c :: rest => utf8Char c ++ utf8Bytes rest

/-- UTF-8 bytes of a string (`s.encode()` in the script). -/
def strBytes (s : String) : List Nat := utf8Bytes s.toList

/-- Lowercase hexadecimal digit. -/
def hexDigit (n : Nat) : Char :=
  if n < 10 then Char.ofNat (48 + n) else Char.ofNat (87 + n)

/-- Four lowercase hex digits, as in Python's `\uXXXX` escapes. -/
def hex4 (n : Nat) : List Char :=
  [hexDigit (n / 4096 % 16), hexDigit (n / 256 % 16), hexDigit (n / 16 % 16), hexDigit (n % 16)]

/-- JSON string escaping as performed by `json.dumps` with its default
`ensure_ascii=True`: quote and backslash get a backslash escape, the named
control characters get their short escapes, every other character outside
printable ASCII (0x20..0x7e) becomes `\uXXXX` (a surrogate pair beyond the
BMP). -/
def escapeChar (c : Char) : List Char :=
  if c = '"' then ['\\', '"']
  else if c = '\\' then ['\\', '\\']
  else if c = '\x08' then ['\\', 'b']
  else if c = '\x09' then ['\\', 't']
  else if c = '\x0a' then ['\\', 'n']
  else if c = '\x0c' then ['\\', 'f']
  else if c = '\x0d' then ['\\', 'r']
  else if c.toNat < 32 then '\\' :: 'u' :: hex4 c.toNat
  else if c.toNat < 127 then [c]
  else if c.toNat < 65536 then '\\' :: 'u' :: hex4 c.toNat
  else
    ('\\' :: 'u' :: hex4 (55296 + (c.toNat - 65536) / 1024)) ++
    ('\\' :: 'u' :: hex4 (56320 + (c.toNat - 65536) % 1024))

/-- Escape every character of a string body. -/
def escChars : List Char → List Char
  | [] => []
  | c :: rest => escapeChar c ++ escChars rest

/-- A serialised JSON string: quote, escaped body, quote. -/
def jstring (s : String) : List Char := '"' :: (escChars s.toList ++ ['"'])

/-- JSON values as the script builds them (`dict` / `list` / `str` /
`int` / `None`). -/
inductive Json where
  | null : Json
  | str (s : String) : Json
  | int (n : Int) : Json
  | arr (xs : List Json) : Json
  | obj (kvs : List (String × Json)) : Json

/-- Join serialised items with the `","` item separator of
`separators=(",", ":")`. -/
def joinComma : List (List Char) → List Char
  | [] => []
  | [x] => x
  | x :: y :: rest => x ++ ',' :: joinComma (y :: rest)

/-- Insert a (key, serialised value) pair into a key-sorted list. -/
def insertPair (p : String × List Char) :
    List (String × List Char) → List (String × List Char)
  | [] => [p]
  | q :: rest => if strLt p.1 q.1 then p :: q :: rest else q :: insertPair p rest

/-- Sort (key, serialised value) pairs by key (`sort_keys=True`; dict keys
are unique, so comparing keys alone matches Python's tuple sort). -/
def sortPairs : List (String × List Char) → List (String × List Char)
  | [] => []
  | p :: rest => insertPair p (sortPairs rest)

mutual

/-- `json.dumps(v, separators=(",", ":"), sort_keys=True)` as a character
list: compact separators, sorted keys, `ensure_ascii` escaping. -/
def jdump : Json → List Char
  | Json.null => ['n', 'u', 'l', 'l']
  | Json.str s => jstring s
  | Json.int n => (toString n).toList
  | Json.arr xs => '[' :: (joinComma (jdumpList xs) ++ [']'])
  | Json.obj kvs =>
      '\x7b' ::
        (joinComma ((sortPairs (jdumpKVs kvs)).map (fun p => jstring p.1 ++ ':' :: p.2)) ++
          ['\x7d'])

/-- Serialise the elements of a JSON array. -/
def jdumpList : List Json → List (List Char)
  | [] => []
  | x :: xs => jdump x :: jdumpList xs

/-- Serialise the values of a JSON object, keeping the keys. -/
def jdumpKVs : List (String × Json) → List (String × List Char)
  | [] => []
  | (k, v) :: rest => (k, jdump v) :: jdumpKVs rest

end

/-- Truncation to 32 bits. -/
def w32 (n : Nat) : Nat := n % 4294967296

/-- 32-bit right rotation. -/
def rotr (n x : Nat) : Nat := w32 ((x >>> n) ||| (x <<< (32 - n)))

/-- SHA-256 `Ch` function. -/
def shaCh (x y z : Nat) : Nat := (x &&& y) ^^^ ((x ^^^ 4294967295) &&& z)

/-- SHA-256 `Maj` function. -/
def shaMaj (x y z : Nat) : Nat := (x &&& y) ^^^ (x &&& z) ^^^ (y &&& z)

/-- SHA-256 big sigma 0. -/
def bsig0 (x : Nat) : Nat := rotr 2 x ^^^ rotr 13 x ^^^ rotr 22 x

/-- SHA-256 big sigma 1. -/
def bsig1 (x : Nat) : Nat := rotr 6 x ^^^ rotr 11 x ^^^ rotr 25 x

/-- SHA-256 small sigma 0. -/
def ssig0 (x : Nat) : Nat := rotr 7 x ^^^ rotr 18 x ^^^ (x >>> 3)

/-- SHA-256 small sigma 1. -/
def ssig1 (x : Nat) : Nat := rotr 17 x ^^^ rotr 19 x ^^^ (x >>> 10)

/-- The 64 SHA-256 round constants (FIPS 180-4 §4.2.2), in decimal. -/
def shaK : List Nat :=
  [1116352408, 1899447441, 3049323471, 3921009573, 961987163, 1508970993,
   2453635748, 2870763221, 3624381080, 310598401, 607225278, 1426881987,
   1925078388, 2162078206, 2614888103, 3248222580, 3835390401, 4022224774,
   264347078, 604807628, 770255983, 1249150122, 1555081692, 1996064986,
   2554220882, 2821834349, 2952996808, 3210313671, 3336571891, 3584528711,
   113926993, 338241895, 666307205, 773529912, 1294757372, 1396182291,
   1695183700, 1986661051, 2177026350, 2456956037, 2730485921, 2820302411,
   3259730800, 3345764771, 3516065817, 3600352804, 4094571909, 275423344,
   430227734, 506948616, 659060556, 883997877, 958139571, 1322822218,
   1537002063, 1747873779, 1955562222, 2024104815, 2227730452, 2361852424,
   2428436474, 2756734187, 3204031479, 3329325298]

/-- The eight SHA-256 working variables. -/
structure SHAState where
  a : Nat
  b : Nat
  c : Nat
  d : Nat
  e : Nat
  f : Nat
  g : Nat
  h : Nat

/-- SHA-256 initial hash value (FIPS 180-4 §5.3.3), in decimal. -/
def shaInit : SHAState :=
  ⟨1779033703, 3144134277, 1013904242, 2773480762,
   1359893119, 2600822924, 528734635, 1541459225⟩

/-- Big-endian 4-byte groups to 32-bit words. -/
def bytesToWords : List Nat → List Nat
  | a :: b :: c :: d :: rest => (((a * 256 + b) * 256 + c) * 256 + d) :: bytesToWords rest
  | _ => []

/-- Extend the 16 block words to the 64-entry message schedule. -/
def extendW (ws : List Nat) : Nat → List Nat
  | 0 => ws
  | Nat.succ k =>
      let t := ws.length
      extendW
        (ws ++ [w32 (ssig1 (ws.getD (t - 2) 0) + ws.getD (t - 7) 0 +
                     ssig0 (ws.getD (t - 15) 0) + ws.getD (t - 16) 0)]) k

/-- One SHA-256 round, consuming a (round constant, schedule word) pair. -/
def shaRound (s : SHAState) (kw : Nat × Nat) : SHAState :=
  let t1 := w32 (s.h + bsig1 s.e + shaCh s.e s.f s.g + kw.1 + kw.2)
  let t2 := w32 (bsig0 s.a + shaMaj s.a s.b s.c)
  ⟨w32 (t1 + t2), s.a, s.b, s.c, w32 (s.d + t1), s.e, s.f, s.g⟩

/-- SHA-256 compression of one 64-byte block. -/
def shaCompress (s : SHAState) (block : List Nat) : SHAState :=
  let ws := extendW (bytesToWords block) 48
  let t := (shaK.zip ws).foldl shaRound s
  ⟨w32 (s.a + t.a), w32 (s.b + t.b), w32 (s.c + t.c), w32 (s.d + t.d),
   w32 (s.e + t.e), w32 (s.f + t.f), w32 (s.g + t.g), w32 (s.h + t.h)⟩

/-- Split a byte list into 64-byte chunks. -/
def chunks64 (bs : List Nat) : List (List Nat) :=
  if h : bs = [] then [] else bs.take 64 :: chunks64 (bs.drop 64)
termination_by bs.length
decreasing_by
  have hp : 0 < bs.length := List.length_pos.mpr h
  simp [List.length_drop]
  omega

/-- 64-bit big-endian byte encoding (the padded bit-length field). -/
def be64 (n : Nat) : List Nat :=
  [n / 72057594037927936 % 256, n / 281474976710656 % 256, n / 1099511627776 % 256,
   n / 4294967296 % 256, n / 16777216 % 256, n / 65536 % 256, n / 256 % 256, n % 256]

/-- SHA-256 message padding: a `0x80` byte, zeros to 56 mod 64, then the
message bit length as 8 big-endian bytes. -/
def sha256pad (m : List Nat) : List Nat :=
  m ++ (128 :: List.replicate ((119 - m.length % 64) % 64) 0) ++ be64 (m.length * 8)

/-- Big-endian bytes of a 32-bit word. -/
def wordBytes (w : Nat) : List Nat :=
  [w / 16777216 % 256, w / 65536 % 256, w / 256 % 256, w % 256]

/-- SHA-256 digest of a byte string (what `hashlib.sha256(...).digest()`
computes). -/
def sha256 (msg : List Nat) : List Nat :=
  let s := (chunks64 (sha256pad msg)).foldl shaCompress shaInit
  wordBytes s.a ++ wordBytes s.b ++ wordBytes s.c ++ wordBytes s.d ++
  wordBytes s.e ++ wordBytes s.f ++ wordBytes s.g ++ wordBytes s.h

/-- HMAC-SHA256 (RFC 2104, block size 64), as computed by
`hmac.new(key, msg, digestmod=hashlib.sha256).digest()` on lines 141-145
of the script. -/
def hmacSha256 (key msg : List Nat) : List Nat :=
  let k0 := if 64 < key.length then sha256 key else key
  let kp := k0 ++ List.replicate (64 - k0.length) 0
  sha256 ((kp.map fun b => b ^^^ 92) ++ sha256 ((kp.map fun b => b ^^^ 54) ++ msg))

/-- `DEFAULT_PERMISSIONS` (script lines 33-72), verbatim. -/
def DEFAULT_PERMISSIONS : List String :=
  ["orders:read", "orders:create", "orders:update", "orders:delete", "orders:cancel", "orders:*",
   "inventory:read", "inventory:adjust", "inventory:transfer", "inventory:*",
   "returns:read", "returns:create", "returns:approve", "returns:reject", "returns:*",
   "shipments:read", "shipments:create", "shipments:update", "shipments:delete", "shipments:*",
   "warranties:read", "warranties:create", "warranties:update", "warranties:delete", "warranties:*",
   "workorders:read", "workorders:create", "workorders:update", "workorders:delete", "workorders:*",
   "admin:outbox", "payments:access", "agents:access"]

/-- The fixed header dict `{"alg": "HS256", "typ": "JWT"}` (line 135). -/
def headerJson : Json := Json.obj [("alg", Json.str "HS256"), ("typ", Json.str "JWT")]

/-- The `claims` dict exactly as built on lines 119-133, in source
insertion order, with the two generated identifiers and the two computed
timestamps as parameters (`exp := now + exp_seconds` is computed by the
caller, line 117). -/
def claimsKVs (sub jti : String) (now exp : Int) : List (String × Json) :=
  [("sub", Json.str sub),
   ("name", Json.str "Local Admin"),
   ("email", Json.str "admin@example.com"),
   ("roles", Json.arr [Json.str "admin"]),
   ("permissions", Json.arr (DEFAULT_PERMISSIONS.map Json.str)),
   ("tenant_id", Json.null),
   ("jti", Json.str jti),
   ("iat", Json.int now),
   ("exp", Json.int exp),
   ("nbf", Json.int now),
   ("iss", Json.str "stateset-auth"),
   ("aud", Json.str "stateset-api"),
   ("scope", Json.null)]

/-- The same logical claim set with the dict entries written in a
different insertion order (alphabetical); used to state that the
canonical serialisation does not depend on insertion order. -/
def claimsKVsAlt (sub jti : String) (now exp : Int) : List (String × Json) :=
  [("aud", Json.str "stateset-api"),
   ("email", Json.str "admin@example.com"),
   ("exp", Json.int exp),
   ("iat", Json.int now),
   ("iss", Json.str "stateset-auth"),
   ("jti", Json.str jti),
   ("name", Json.str "Local Admin"),
   ("nbf", Json.int now),
   ("permissions", Json.arr (DEFAULT_PERMISSIONS.map Json.str)),
   ("roles", Json.arr [Json.str "admin"]),
   ("scope", Json.null),
   ("sub", Json.str sub),
   ("tenant_id", Json.null)]

/-- `header_b64` (line 137): base64url of the serialised header. -/
def headerSegment : List Char := b64url (utf8Bytes (jdump headerJson))

/-- `payload_b64` (line 138): base64url of the serialised claims. -/
def payloadSegment (sub jti : String) (now exp : Int) : List Char :=
  b64url (utf8Bytes (jdump (Json.obj (claimsKVs sub jti now exp))))

/-- `signing_input = header_b64 + b"." + payload_b64` (line 139). -/
def signingInput (sub jti : String) (now exp : Int) : List Char :=
  headerSegment ++ '.' :: payloadSegment sub jti now exp

/-- `signature_b64` (lines 141-146): base64url of the HMAC-SHA256 digest
of the signing input, keyed with the UTF-8 bytes of the secret. -/
def signatureSegment (secret sub jti : String) (now exp : Int) : List Char :=
  b64url (hmacSha256 (strBytes secret) (utf8Bytes (signingInput sub jti now exp)))

/-- `token = (signing_input + b"." + signature_b64).decode()` (line 148),
as a character list. -/
def tokenChars (secret sub jti : String) (now exp : Int) : List Char :=
  signingInput sub jti now exp ++ '.' :: signatureSegment secret sub jti now exp

/-- The issued token string. -/
def issue (secret sub jti : String) (now exp : Int) : String :=
  String.mk (tokenChars secret sub jti now exp)

/-- The process environment, as consulted through `os.environ.get`. -/
def Env : Type := String → Option String

/-- State of `config/default.toml`: missing (`open` raises
`FileNotFoundError`), present but not parseable as TOML (`tomllib.load`
raises `TOMLDecodeError`), or a parsed table.  Table values are modelled
after Python's `str()` conversion (line 92 applies `str` to whatever
value the key holds). -/
inductive FileState where
  | absent : FileState
  | malformed : FileState
  | present (cfg : List (String × String)) : FileState
deriving DecidableEq

/-- The `env_map` of `load_config_value` (lines 78-81): the two
environment-variable candidates for each known key, `()` otherwise. -/
def env_map (key : String) : List String :=
  if key = "jwt_secret" then ["APP__JWT_SECRET", "JWT_SECRET"]
  else if key = "jwt_expiration" then ["APP__JWT_EXPIRATION", "JWT_EXPIRATION"]
  else []

/-- The candidate loop of lines 82-85: return the first environment
variable whose value is truthy (set and non-empty). -/
def envLookup (env : Env) : List String → Option String
  | [] => none
  | name :: rest =>
      match env name with
      | some v => if v = "" then envLookup env rest else some v
      | none => envLookup env rest

/-- The file fallback of lines 87-95: a missing file is caught
(`except FileNotFoundError: pass`, i.e. no value); an unparseable file
raises `TOMLDecodeError` (a subclass of `ValueError`) out of
`load_config_value`, to be handled — or not — by the caller; otherwise
`cfg.get(key)` is returned whenever the key is present
(`if val is not None`), even when the stringified value is empty. -/
def fileLookup : FileState → String → Except String (Option String)
  | FileState.absent, _ => Except.ok none
  | FileState.malformed, _ => Except.error "TOMLDecodeError"
  | FileState.present cfg, key => Except.ok (cfg.lookup key)

/-- `load_config_value(key)` (lines 76-97): environment candidates first,
then the config file. -/
def load_config_value (env : Env) (file : FileState) (key : String) :
    Except String (Option String) :=
  match envLookup env (env_map key) with
  | some v => Except.ok (some v)
  | none => fileLookup file key

/-- ASCII whitespace stripped by Python's `int(str)` conversion: the six
usual space characters plus the separator control characters
`\x1c`-`\x1f`, all of which CPython's `Py_UNICODE_ISSPACE` accepts. -/
def isPySpace (c : Char) : Bool :=
  c = ' ' ∨ c = '\t' ∨ c = '\n' ∨ c = '\x0b' ∨ c = '\x0c' ∨ c = '\r' ∨
  c = '\x1c' ∨ c = '\x1d' ∨ c = '\x1e' ∨ c = '\x1f'

/-- Strip leading and trailing whitespace. -/
def stripSpaces (l : List Char) : List Char :=
  ((l.dropWhile isPySpace).reverse.dropWhile isPySpace).reverse

/-- Decimal value of a digit list. -/
def digitsVal (l : List Char) : Nat :=
  l.foldl (fun acc c => acc * 10 + (c.toNat - 48)) 0

/-- PEP 515 digit grouping as accepted by Python's `int()`: a non-empty
run of decimal digits in which single underscores may appear, but only
between two digits (no leading, trailing, or doubled underscore). -/
def digitsGrouped : List Char → Bool
  | [] => false
  | [c] => c.isDigit
  | c :: '_' :: rest => c.isDigit ∧ digitsGrouped rest
  | c :: rest => c.isDigit ∧ digitsGrouped rest

/-- Python's `int(s)` on ASCII decimal strings: optional surrounding
whitespace, optional sign, then PEP 515 digit grouping; `none` models
the `ValueError` raised on any other ASCII input.  Python additionally
accepts non-ASCII decimal digits (Unicode category Nd) and non-ASCII
whitespace; those inputs are outside the modelled domain, so theorems
whose hypotheses classify a string as unparseable restrict it to ASCII. -/
def pyInt (s : String) : Option Int :=
  match stripSpaces s.toList with
  | '-' :: rest =>
      if digitsGrouped rest then
        some (-(digitsVal (rest.filter fun c => c != '_') : Int))
      else none
  | '+' :: rest =>
      if digitsGrouped rest then
        some ((digitsVal (rest.filter fun c => c != '_') : Int))
      else none
  | l =>
      if digitsGrouped l then
        some ((digitsVal (l.filter fun c => c != '_') : Int))
      else none

/-- The expression `load_config_value("jwt_expiration") or "3600"` of
line 112: Python's `or` replaces a falsy left operand (`None` or the
empty string) with the default string. -/
def expString : Option String → String
  | some v => if v = "" then "3600" else v
  | none => "3600"

/-- Lines 111-114 as a whole:
`try: exp_seconds = int(load_config_value("jwt_expiration") or "3600")
except ValueError: exp_seconds = 3600`.  Both a failed `int()`
conversion and a `TOMLDecodeError` raised by the lookup itself are
caught here, because `tomllib.TOMLDecodeError` subclasses `ValueError`;
either way the lifetime falls back to 3600. -/
def resolvedLifetime (env : Env) (file : FileState) : Int :=
  match load_config_value env file "jwt_expiration" with
  | Except.error _ => 3600
  | Except.ok expOpt => (pyInt (expString expOpt)).getD 3600

/-- Result of one process invocation: an exit code with the lines written
to stdout and stderr, or an uncaught exception. -/
inductive Outcome where
  | exit (code : Nat) (stdout stderr : List String) : Outcome
  | uncaught (exc : String) : Outcome

/-- The stderr diagnostic of lines 106-108. -/
def secretErrMsg : String :=
  "Unable to locate JWT secret. Set APP__JWT_SECRET or update config/default.toml."

/-- `main()` (lines 104-155).  The wall-clock reading `int(time.time())`
and the two `str(uuid.uuid4())` results are passed in as `now`, `sub`,
`jti`.  Mirrors the control flow exactly: the `jwt_secret` lookup on
line 105 sits outside any handler, so a `TOMLDecodeError` raised there
escapes uncaught; a falsy secret prints the diagnostic to stderr and
returns 1; the `jwt_expiration` lookup and `int()` conversion on lines
111-114 are wrapped in `except ValueError` (which also catches
`TOMLDecodeError`), so all their failures fall back to a 3600-second
lifetime (`resolvedLifetime`). -/
def runMain (env : Env) (file : FileState) (now : Int) (sub jti : String) : Outcome :=
  match load_config_value env file "jwt_secret" with
  | Except.error e => Outcome.uncaught e
  | Except.ok none => Outcome.exit 1 [] [secretErrMsg]
  | Except.ok (some secret) =>
      if secret = "" then Outcome.exit 1 [] [secretErrMsg]
      else
        let expSeconds : Int := resolvedLifetime env file
        let exp := now + expSeconds
        let token := issue secret sub jti now exp
        Outcome.exit 0
          ["Generated admin JWT (valid for " ++ toString expSeconds ++ " seconds):", "",
           token, "", "Use it as:", "Authorization: Bearer " ++ token]
          []

/-- The stdout lines of an outcome. -/
def Outcome.stdoutLines : Outcome → List String
  | Outcome.exit _ out _ => out
  | Outcome.uncaught _ => []

/-- The stderr lines of an outcome. -/
def Outcome.stderrLines : Outcome → List String
  | Outcome.exit _ _ err => err
  | Outcome.uncaught _ => []

/-- An environment with no variables set. -/
def envEmpty : Env := fun _ => none

/-- An environment with only `APP__JWT_SECRET` set. -/
def envSecret : Env :=
  fun n => if n = "APP__JWT_SECRET" then some "topsecret" else none

/-- `APP__JWT_SECRET` set and `APP__JWT_EXPIRATION` set to a non-numeric
string. -/
def envSecretAbc : Env :=
  fun n =>
    if n = "APP__JWT_SECRET" then some "topsecret"
    else if n = "APP__JWT_EXPIRATION" then some "abc" else none

/-- Every character `b64char` can produce lies in the base64url alphabet
(the default is itself a member). -/
theorem b64char_mem (n : Nat) : b64char n ∈ b64Alphabet := by
  by_cases h : n < b64Alphabet.length
  · rw [b64char, List.getD_eq_getElem?_getD, List.getElem?_eq_getElem h]
    exact List.getElem_mem h
  · rw [b64char, List.getD_eq_getElem?_getD, List.getElem?_eq_none (by omega)]
    decide

/-- Every character emitted by `b64url` lies in the base64url alphabet. -/
theorem b64url_mem (bs : List Nat) : ∀ c ∈ b64url bs, c ∈ b64Alphabet := by
  induction bs using b64url.induct with
  | case1 => intro c hc; simp [b64url] at hc
  | case2 a =>
      intro c hc
      simp only [b64url, List.mem_cons, List.not_mem_nil, or_false] at hc
      rcases hc with h | h <;> (subst h; exact b64char_mem _)
  | case3 a b =>
      intro c hc
      simp only [b64url, List.mem_cons, List.not_mem_nil, or_false] at hc
      rcases hc with h | h | h <;> (subst h; exact b64char_mem _)
  | case4 a b c rest ih =>
      intro x hx
      simp only [b64url, List.mem_cons] at hx
      rcases hx with h | h | h | h | h
      · subst h; exact b64char_mem _
      · subst h; exact b64char_mem _
      · subst h; exact b64char_mem _
      · subst h; exact b64char_mem _
      · exact ih x h

/-- `b64url` never emits a `'.'`. -/
theorem b64url_no_dot (bs : List Nat) : ∀ c ∈ b64url bs, c ≠ '.' := by
  intro c hc heq
  have hm := b64url_mem bs c hc
  rw [heq] at hm
  revert hm
  decide

/-- Splitting a dot-free list yields the single segment. -/
theorem splitDots_no_dot (a : List Char) (h : ∀ c ∈ a, c ≠ '.') :
    splitDots a = [a] := by
  induction a with
  | nil => rfl
  | cons c rest ih =>
      have hc : c ≠ '.' := h c (by simp)
      have hr : splitDots rest = [rest] := ih fun x hx => h x (by simp [hx])
      simp [splitDots, hr, hc]

/-- Splitting a list that starts with a dot-free segment followed by a
separator peels off that segment. -/
theorem splitDots_append (a l : List Char) (h : ∀ c ∈ a, c ≠ '.') :
    splitDots (a ++ '.' :: l) = a :: splitDots l := by
  induction a with
  | nil => simp [splitDots]
  | cons c rest ih =>
      have hc : c ≠ '.' := h c (by simp)
      have hr := ih fun x hx => h x (by simp [hx])
      simp [splitDots, hr, hc]

/-- Splitting the issued token at `'.'` yields exactly the three
segments it was assembled from. -/
theorem token_split (secret sub jti : String) (now exp : Int) :
    splitDots (tokenChars secret sub jti now exp) =
      [headerSegment, payloadSegment sub jti now exp,
       signatureSegment secret sub jti now exp] := by
  have hh : ∀ c ∈ headerSegment, c ≠ '.' := b64url_no_dot _
  have hp : ∀ c ∈ payloadSegment sub jti now exp, c ≠ '.' := b64url_no_dot _
  have hs : ∀ c ∈ signatureSegment secret sub jti now exp, c ≠ '.' := b64url_no_dot _
  have hassoc : tokenChars secret sub jti now exp =
      headerSegment ++ '.' ::
        (payloadSegment sub jti now exp ++ '.' :: signatureSegment secret sub jti now exp) := by
    simp [tokenChars, signingInput]
  rw [hassoc, splitDots_append _ _ hh, splitDots_append _ _ hp, splitDots_no_dot _ hs]

/-- A SHA-256 digest is 32 bytes. -/
theorem sha256_length (msg : List Nat) : (sha256 msg).length = 32 := by
  simp [sha256, wordBytes]

/-- An HMAC-SHA256 digest is 32 bytes. -/
theorem hmacSha256_length (key msg : List Nat) : (hmacSha256 key msg).length = 32 := by
  simp only [hmacSha256]
  exact sha256_length _

/-- `b64url` of a non-empty byte string is non-empty. -/
theorem b64url_ne_nil (bs : List Nat) (h : bs ≠ []) : b64url bs ≠ [] := by
  match bs with
  | [] => exact absurd rfl h
  | [a] => simp [b64url]
  | [a, b] => simp [b64url]
  | a :: b :: c :: rest => simp [b64url]

/-- The object serialiser starts with an opening brace. -/
theorem jdump_obj (kvs : List (String × Json)) :
    jdump (Json.obj kvs) =
      '\x7b' ::
        (joinComma ((sortPairs (jdumpKVs kvs)).map (fun p => jstring p.1 ++ ':' :: p.2)) ++
          ['\x7d']) := by
  rw [jdump]

/-- The payload segment of the token is never empty. -/
theorem payloadSegment_ne_nil (sub jti : String) (now exp : Int) :
    payloadSegment sub jti now exp ≠ [] := by
  apply b64url_ne_nil
  rw [jdump_obj]
  simp [utf8Bytes, utf8Char]

/-- The signature segment of the token is never empty. -/
theorem signatureSegment_ne_nil (secret sub jti : String) (now exp : Int) :
    signatureSegment secret sub jti now exp ≠ [] := by
  apply b64url_ne_nil
  have h := hmacSha256_length (strBytes secret) (utf8Bytes (signingInput sub jti now exp))
  intro hnil
  rw [hnil] at h
  simp at h

/-- Unicode code points are below 0x110000. -/
theorem char_toNat_lt (c : Char) : c.toNat < 1114112 := by
  rcases c with ⟨v, hv⟩
  rcases hv with h | ⟨h1, h2⟩
  · exact Nat.lt_trans h (by decide)
  · exact h2

/-- UTF-8 encoding produces byte values. -/
theorem utf8Char_lt (c : Char) : ∀ b ∈ utf8Char c, b < 256 := by
  have h := char_toNat_lt c
  intro b hb
  simp only [utf8Char] at hb
  split at hb
  · simp at hb; omega
  · split at hb
    · simp at hb; rcases hb with hb | hb <;> omega
    · split at hb
      · simp at hb; rcases hb with hb | hb | hb <;> omega
      · simp at hb; rcases hb with hb | hb | hb | hb <;> omega

/-- UTF-8 encoding of a character list produces byte values. -/
theorem utf8Bytes_lt (l : List Char) : ∀ b ∈ utf8Bytes l, b < 256 := by
  induction l with
  | nil => intro b hb; simp [utf8Bytes] at hb
  | cons c rest ih =>
      intro b hb
      simp only [utf8Bytes, List.mem_append] at hb
      rcases hb with hb | hb
      · exact utf8Char_lt c b hb
      · exact ih b hb

/-- Decoding inverts encoding on 6-bit groups. -/
theorem b64val_b64char : ∀ n < 64, b64val (b64char n) = n := by decide

/-- `b64urlDecode` inverts `b64url` on byte strings. -/
theorem b64url_decode_encode (bs : List Nat) (h : ∀ b ∈ bs, b < 256) :
    b64urlDecode (b64url bs) = bs := by
  induction bs using b64url.induct with
  | case1 => rfl
  | case2 a =>
      have ha : a < 256 := h a (by simp)
      rw [b64url, b64urlDecode, b64val_b64char _ (by omega), b64val_b64char _ (by omega)]
      simp
      omega
  | case3 a b =>
      have ha : a < 256 := h a (by simp)
      have hb : b < 256 := h b (by simp)
      rw [b64url, b64urlDecode, b64val_b64char _ (by omega), b64val_b64char _ (by omega),
        b64val_b64char _ (by omega)]
      simp
      constructor <;> omega
  | case4 a b c rest ih =>
      have ha : a < 256 := h a (by simp)
      have hb : b < 256 := h b (by simp)
      have hc : c < 256 := h c (by simp)
      have ihr := ih fun x hx => h x (by simp [hx])
      rw [b64url, b64urlDecode, b64val_b64char _ (by omega), b64val_b64char _ (by omega),
        b64val_b64char _ (by omega), b64val_b64char _ (by omega), ihr]
      simp
      refine ⟨by omega, by omega, by omega⟩

/-- When the secret resolves to a non-empty string, `main` succeeds
unconditionally — every failure of the lifetime lookup or conversion is
absorbed into `resolvedLifetime` — and prints the six-line report. -/
theorem runMain_success (env : Env) (file : FileState) (now : Int) (sub jti s : String)
    (hsec : load_config_value env file "jwt_secret" = Except.ok (some s)) (hs : s ≠ "") :
    runMain env file now sub jti =
      Outcome.exit 0
        ["Generated admin JWT (valid for " ++ toString (resolvedLifetime env file) ++
           " seconds):", "",
         issue s sub jti now (now + resolvedLifetime env file), "", "Use it as:",
         "Authorization: Bearer " ++ issue s sub jti now (now + resolvedLifetime env file)]
        [] := by
  unfold runMain
  rw [hsec]
  simp [hs]

/-- `load_config_value` can only raise when the config file is
malformed, and then the exception is the `TOMLDecodeError`. -/
theorem load_error_inversion (env : Env) (file : FileState) (key : String) (e : String)
    (h : load_config_value env file key = Except.error e) :
    envLookup env (env_map key) = none ∧ file = FileState.malformed ∧
      e = "TOMLDecodeError" := by
  unfold load_config_value at h
  cases henv : envLookup env (env_map key) with
  | some v => rw [henv] at h; simp at h
  | none =>
      rw [henv] at h
      cases file with
      | absent => simp [fileLookup] at h
      | malformed =>
          simp [fileLookup] at h
          exact ⟨rfl, rfl, h.symm⟩
      | present cfg => simp [fileLookup] at h

/-! ## Claims -/

/-- C1: for every non-empty secret, splitting the issued token at `'.'`
yields the header and payload segments followed by exactly the unpadded
URL-safe base64 encoding of the HMAC-SHA256 digest, keyed with the
secret, of the bytes of the first segment, a dot, and the second
segment; i.e. the token is
`header_b64 ++ "." ++ payload_b64 ++ "." ++ b64url(HMAC-SHA256(secret, header_b64 ++ "." ++ payload_b64))`. -/
theorem c1_signature_roundtrip (secret sub jti : String) (now exp : Int)
    (hsecret : secret ≠ "") :
    splitDots (tokenChars secret sub jti now exp) =
      [headerSegment, payloadSegment sub jti now exp,
       b64url (hmacSha256 (strBytes secret)
         (utf8Bytes (headerSegment ++ '.' :: payloadSegment sub jti now exp)))] ∧
    tokenChars secret sub jti now exp =
      (headerSegment ++ '.' :: payloadSegment sub jti now exp) ++ '.' ::
        b64url (hmacSha256 (strBytes secret)
          (utf8Bytes (headerSegment ++ '.' :: payloadSegment sub jti now exp))) :=
  ⟨token_split secret sub jti now exp, rfl⟩

/-- Witness for C1 at a concrete secret and inputs. -/
theorem c1_signature_roundtrip_witness :
    (("topsecret" : String) ≠ "") ∧
    (splitDots (tokenChars "topsecret" "S" "J" 0 3600) =
      [headerSegment, payloadSegment "S" "J" 0 3600,
       b64url (hmacSha256 (strBytes "topsecret")
         (utf8Bytes (headerSegment ++ '.' :: payloadSegment "S" "J" 0 3600)))] ∧
     tokenChars "topsecret" "S" "J" 0 3600 =
      (headerSegment ++ '.' :: payloadSegment "S" "J" 0 3600) ++ '.' ::
        b64url (hmacSha256 (strBytes "topsecret")
          (utf8Bytes (headerSegment ++ '.' :: payloadSegment "S" "J" 0 3600)))) :=
  ⟨by decide, c1_signature_roundtrip "topsecret" "S" "J" 0 3600 (by decide)⟩

/-- C2: every issued token has exactly two `'.'` characters, splits into
three non-empty segments, and contains neither `'='` padding nor the
standard-alphabet characters `'+'` and `'/'`. -/
theorem c2_token_shape (secret sub jti : String) (now exp : Int) :
    (tokenChars secret sub jti now exp).count '.' = 2 ∧
    splitDots (tokenChars secret sub jti now exp) =
      [headerSegment, payloadSegment sub jti now exp,
       signatureSegment secret sub jti now exp] ∧
    headerSegment ≠ [] ∧ payloadSegment sub jti now exp ≠ [] ∧
    signatureSegment secret sub jti now exp ≠ [] ∧
    '=' ∉ tokenChars secret sub jti now exp ∧
    '+' ∉ tokenChars secret sub jti now exp ∧
    '/' ∉ tokenChars secret sub jti now exp := by
  have hc0 : ∀ (l : List Char), (∀ c ∈ l, c ≠ '.') → l.count '.' = 0 :=
    fun l hl => List.count_eq_zero.mpr fun hmem => hl '.' hmem rfl
  have hm : ∀ x ∈ tokenChars secret sub jti now exp, x ∈ b64Alphabet ∨ x = '.' := by
    intro x hx
    have hx' : x ∈ headerSegment ++ '.' ::
        (payloadSegment sub jti now exp ++ '.' :: signatureSegment secret sub jti now exp) := by
      simpa [tokenChars, signingInput] using hx
    simp only [List.mem_append, List.mem_cons] at hx'
    rcases hx' with hx' | hx' | hx' | hx' | hx'
    · exact Or.inl (b64url_mem _ x hx')
    · exact Or.inr hx'
    · exact Or.inl (b64url_mem _ x hx')
    · exact Or.inr hx'
    · exact Or.inl (b64url_mem _ x hx')
  have hne : ∀ x ∈ tokenChars secret sub jti now exp, x ≠ '=' ∧ x ≠ '+' ∧ x ≠ '/' := by
    intro x hx
    rcases hm x hx with ha | hdot
    · refine ⟨?_, ?_, ?_⟩ <;> (intro heq; subst heq; revert ha; decide)
    · subst hdot; exact ⟨by decide, by decide, by decide⟩
  refine ⟨?_, token_split secret sub jti now exp, by decide,
    payloadSegment_ne_nil sub jti now exp, signatureSegment_ne_nil secret sub jti now exp,
    fun hmem => (hne '=' hmem).1 rfl, fun hmem => (hne '+' hmem).2.1 rfl,
    fun hmem => (hne '/' hmem).2.2 rfl⟩
  have h1 := hc0 headerSegment (b64url_no_dot _)
  have h2 := hc0 (payloadSegment sub jti now exp) (b64url_no_dot _)
  have h3 := hc0 (signatureSegment secret sub jti now exp) (b64url_no_dot _)
  simp [tokenChars, signingInput, List.count_append, List.count_cons, h1, h2, h3]

/-- Witness for C2 at concrete inputs. -/
theorem c2_token_shape_witness :
    (tokenChars "key2" "S2" "J2" 1 7).count '.' = 2 ∧
    '=' ∉ tokenChars "key2" "S2" "J2" 1 7 :=
  ⟨(c2_token_shape "key2" "S2" "J2" 1 7).1,
   (c2_token_shape "key2" "S2" "J2" 1 7).2.2.2.2.2.1⟩

/-- C3: the second token segment decodes to the serialised claim set;
the claim set carries all thirteen fields (with explicit nulls for
`tenant_id` and `scope`), and its timestamps satisfy
`exp - iat = lifetime` and `nbf = iat`. -/
theorem c3_payload_fields (secret sub jti : String) (now lt : Int) :
    (splitDots (tokenChars secret sub jti now (now + lt))).getD 1 [] =
      payloadSegment sub jti now (now + lt) ∧
    b64urlDecode (payloadSegment sub jti now (now + lt)) =
      utf8Bytes (jdump (Json.obj (claimsKVs sub jti now (now + lt)))) ∧
    (claimsKVs sub jti now (now + lt)).lookup "sub" = some (Json.str sub) ∧
    (claimsKVs sub jti now (now + lt)).lookup "name" = some (Json.str "Local Admin") ∧
    (claimsKVs sub jti now (now + lt)).lookup "email" = some (Json.str "admin@example.com") ∧
    (claimsKVs sub jti now (now + lt)).lookup "roles" = some (Json.arr [Json.str "admin"]) ∧
    (claimsKVs sub jti now (now + lt)).lookup "permissions" =
      some (Json.arr (DEFAULT_PERMISSIONS.map Json.str)) ∧
    (claimsKVs sub jti now (now + lt)).lookup "tenant_id" = some Json.null ∧
    (claimsKVs sub jti now (now + lt)).lookup "jti" = some (Json.str jti) ∧
    (claimsKVs sub jti now (now + lt)).lookup "iat" = some (Json.int now) ∧
    (claimsKVs sub jti now (now + lt)).lookup "exp" = some (Json.int (now + lt)) ∧
    (claimsKVs sub jti now (now + lt)).lookup "nbf" = some (Json.int now) ∧
    (claimsKVs sub jti now (now + lt)).lookup "iss" = some (Json.str "stateset-auth") ∧
    (claimsKVs sub jti now (now + lt)).lookup "aud" = some (Json.str "stateset-api") ∧
    (claimsKVs sub jti now (now + lt)).lookup "scope" = some Json.null ∧
    (now + lt) - now = lt := by
  refine ⟨?_, ?_, rfl, rfl, rfl, rfl, rfl, rfl, rfl, rfl, rfl, rfl, rfl, rfl, rfl, by omega⟩
  · rw [token_split]; rfl
  · exact b64url_decode_encode _ (utf8Bytes_lt _)

/-- C4: whenever the secret setting resolves (without raising) to
nothing or to an empty value, the process prints the single diagnostic
line to stderr, exits with status 1, and prints nothing to stdout. -/
theorem c4_missing_secret (env : Env) (file : FileState) (now : Int) (sub jti : String)
    (h : load_config_value env file "jwt_secret" = Except.ok none ∨
         load_config_value env file "jwt_secret" = Except.ok (some "")) :
    runMain env file now sub jti = Outcome.exit 1 [] [secretErrMsg] := by
  unfold runMain
  rcases h with h | h <;> rw [h] <;> simp

/-- Witness for C4: no environment variables and no config file. -/
theorem c4_missing_secret_witness :
    (load_config_value envEmpty FileState.absent "jwt_secret" = Except.ok none ∨
     load_config_value envEmpty FileState.absent "jwt_secret" = Except.ok (some "")) ∧
    runMain envEmpty FileState.absent 0 "S" "J" = Outcome.exit 1 [] [secretErrMsg] :=
  ⟨Or.inl rfl, c4_missing_secret envEmpty FileState.absent 0 "S" "J" (Or.inl rfl)⟩

/-- C5: when the lifetime setting resolves to a non-empty ASCII string
that `int()` rejects (e.g. `"abc"`), issuance still succeeds (exit 0)
and the token lifetime is the default 3600 seconds (`exp = iat + 3600`).
The ASCII restriction keeps the hypothesis inside the domain on which
`pyInt` coincides exactly with Python's `int()`. -/
theorem c5_malformed_lifetime (env : Env) (file : FileState) (now : Int)
    (sub jti s v : String)
    (hsec : load_config_value env file "jwt_secret" = Except.ok (some s)) (hs : s ≠ "")
    (hexp : load_config_value env file "jwt_expiration" = Except.ok (some v))
    (hv : v ≠ "") (hascii : ∀ c ∈ v.toList, c.toNat < 128) (hpi : pyInt v = none) :
    runMain env file now sub jti =
      Outcome.exit 0
        ["Generated admin JWT (valid for " ++ toString (3600 : Int) ++ " seconds):", "",
         issue s sub jti now (now + 3600), "", "Use it as:",
         "Authorization: Bearer " ++ issue s sub jti now (now + 3600)] [] := by
  have h := runMain_success env file now sub jti s hsec hs
  rw [h]
  simp [resolvedLifetime, hexp, expString, hv, hpi]

/-- Witness for C5: `APP__JWT_EXPIRATION="abc"`. -/
theorem c5_malformed_lifetime_witness :
    pyInt "abc" = none ∧
    runMain envSecretAbc FileState.absent 0 "S" "J" =
      Outcome.exit 0
        ["Generated admin JWT (valid for " ++ toString (3600 : Int) ++ " seconds):", "",
         issue "topsecret" "S" "J" 0 (0 + 3600), "", "Use it as:",
         "Authorization: Bearer " ++ issue "topsecret" "S" "J" 0 (0 + 3600)] [] :=
  ⟨rfl, c5_malformed_lifetime envSecretAbc FileState.absent 0 "S" "J" "topsecret" "abc"
     rfl (by decide) rfl (by decide) (by decide) rfl⟩

/-- C6 counterexample: with no environment variables and a config file
mapping `jwt_secret` to the empty string, the resolver returns the empty
string — the claim that an empty string is never returned (and that only
non-empty values win) fails on the file source, which checks
`is not None` rather than truthiness. -/
theorem c6_counterexample :
    load_config_value envEmpty (FileState.present [("jwt_secret", "")]) "jwt_secret" =
      Except.ok (some "") := rfl

/-- C6 (amended): the resolver tries the primary environment variable,
then the secondary one, then the config file, in that order; an
environment source wins only with a non-empty value, while the file
source wins with any present value — including the empty string. -/
theorem c6_resolution_order (env : Env) (file : FileState) (key p s : String)
    (hm : env_map key = [p, s]) :
    (∀ v, env p = some v → v ≠ "" → load_config_value env file key = Except.ok (some v)) ∧
    ((env p = none ∨ env p = some "") →
      ∀ v, env s = some v → v ≠ "" → load_config_value env file key = Except.ok (some v)) ∧
    ((env p = none ∨ env p = some "") → (env s = none ∨ env s = some "") →
      load_config_value env file key = fileLookup file key) ∧
    (∀ cfg v, file = FileState.present cfg → cfg.lookup key = some v →
      (env p = none ∨ env p = some "") → (env s = none ∨ env s = some "") →
      load_config_value env file key = Except.ok (some v)) := by
  have hskip : ∀ (x : String), (env x = none ∨ env x = some "") →
      ∀ rest, envLookup env (x :: rest) = envLookup env rest := by
    intro x hmiss rest
    rcases hmiss with h | h <;> simp [envLookup, h]
  refine ⟨?_, ?_, ?_, ?_⟩
  · intro v hv hne
    unfold load_config_value
    rw [hm]
    simp [envLookup, hv, hne]
  · intro hmiss v hv hne
    unfold load_config_value
    rw [hm, hskip p hmiss [s]]
    simp [envLookup, hv, hne]
  · intro h1 h2
    unfold load_config_value
    rw [hm, hskip p h1 [s], hskip s h2 []]
    rfl
  · intro cfg v hf hl h1 h2
    subst hf
    unfold load_config_value
    rw [hm, hskip p h1 [s], hskip s h2 []]
    simp [envLookup, fileLookup, hl]

/-- Witness for C6 (amended): the file source returning an empty string. -/
theorem c6_resolution_order_witness :
    env_map "jwt_secret" = ["APP__JWT_SECRET", "JWT_SECRET"] ∧
    load_config_value envEmpty (FileState.present [("jwt_secret", "")]) "jwt_secret" =
      Except.ok (some "") :=
  ⟨rfl,
   (c6_resolution_order envEmpty (FileState.present [("jwt_secret", "")]) "jwt_secret"
      "APP__JWT_SECRET" "JWT_SECRET" rfl).2.2.2 [("jwt_secret", "")] "" rfl rfl
      (Or.inl rfl) (Or.inl rfl)⟩

/-- C7 counterexample: with no environment secret and a present but
unparseable config file, the `jwt_secret` lookup on line 105 — which
sits outside any exception handler — raises `TOMLDecodeError`, and the
exception escapes uncaught: an error other than the fatal
missing-secret diagnostic reaches the process boundary. -/
theorem c7_counterexample :
    runMain envEmpty FileState.malformed 0 "S" "J" =
      Outcome.uncaught "TOMLDecodeError" := rfl

/-- C7 (amended): every run ends in exactly one of three ways — the
uncaught `TOMLDecodeError` from the unguarded `jwt_secret` lookup (only
when no environment variable supplies the secret and the file is
malformed), a successful exit 0 with empty stderr, or the fatal
missing-secret exit 1.  In particular a malformed config file hit
during the `jwt_expiration` lookup is absorbed by the surrounding
`except ValueError` (`TOMLDecodeError` subclasses `ValueError`) and
falls back to the 3600-second lifetime. -/
theorem c7_error_propagation (env : Env) (file : FileState) (now : Int) (sub jti : String) :
    (envLookup env (env_map "jwt_secret") = none ∧ file = FileState.malformed ∧
      runMain env file now sub jti = Outcome.uncaught "TOMLDecodeError") ∨
    (∃ out, runMain env file now sub jti = Outcome.exit 0 out []) ∨
    runMain env file now sub jti = Outcome.exit 1 [] [secretErrMsg] := by
  cases hsec : load_config_value env file "jwt_secret" with
  | error e =>
      obtain ⟨h1, h2, h3⟩ := load_error_inversion env file "jwt_secret" e hsec
      subst h3
      refine Or.inl ⟨h1, h2, ?_⟩
      unfold runMain
      rw [hsec]
  | ok o =>
      cases o with
      | none =>
          refine Or.inr (Or.inr ?_)
          unfold runMain
          rw [hsec]
      | some s =>
          by_cases hse : s = ""
          · refine Or.inr (Or.inr ?_)
            unfold runMain
            rw [hsec]
            simp [hse]
          · exact Or.inr (Or.inl ⟨_, runMain_success env file now sub jti s hsec hse⟩)

/-- C8: the canonical serialisation emits the claim keys in sorted
order; serialising the same logical claim values from a different dict
insertion order yields byte-identical output; and the token is a
function of (secret, sub, jti, now, exp) alone, so two invocations that
agree on those inputs (in particular on the two generated identifiers)
produce identical segments. -/
theorem c8_canonical_determinism (secret sub jti : String) (now exp : Int) :
    (sortPairs (jdumpKVs (claimsKVs sub jti now exp))).map Prod.fst =
      ["aud", "email", "exp", "iat", "iss", "jti", "name", "nbf",
       "permissions", "roles", "scope", "sub", "tenant_id"] ∧
    List.Chain' (fun a b => strLt a b = true)
      ["aud", "email", "exp", "iat", "iss", "jti", "name", "nbf",
       "permissions", "roles", "scope", "sub", "tenant_id"] ∧
    jdump (Json.obj (claimsKVs sub jti now exp)) =
      jdump (Json.obj (claimsKVsAlt sub jti now exp)) ∧
    (∀ secret2 sub2 jti2 : String, ∀ now2 exp2 : Int,
      secret2 = secret → sub2 = sub → jti2 = jti → now2 = now → exp2 = exp →
      tokenChars secret2 sub2 jti2 now2 exp2 = tokenChars secret sub jti now exp) := by
  refine ⟨rfl, ?_, rfl, ?_⟩
  · simp only [List.chain'_cons, List.chain'_singleton, and_true]
    decide
  · intro s2 u2 j2 n2 e2 h1 h2 h3 h4 h5
    subst h1; subst h2; subst h3; subst h4; subst h5
    rfl

/-- Witness for C8 at concrete inputs. -/
theorem c8_canonical_determinism_witness :
    (sortPairs (jdumpKVs (claimsKVs "S" "J" 0 3600))).map Prod.fst =
      ["aud", "email", "exp", "iat", "iss", "jti", "name", "nbf",
       "permissions", "roles", "scope", "sub", "tenant_id"] ∧
    tokenChars "k" "S" "J" 0 3600 = tokenChars "k" "S" "J" 0 3600 :=
  ⟨(c8_canonical_determinism "k" "S" "J" 0 3600).1,
   (c8_canonical_determinism "k" "S" "J" 0 3600).2.2.2 "k" "S" "J" 0 3600
     rfl rfl rfl rfl rfl⟩

/-- C9 counterexample: on a successful run the stdout report has six
lines, the fifth being the literal `"Use it as:"`, so it is not the
claimed five-item report (statement, blank, token, blank, Authorization
line) with nothing else. -/
theorem c9_counterexample :
    (Outcome.stdoutLines (runMain envSecret FileState.absent 0 "S" "J")).length = 6 ∧
    (Outcome.stdoutLines (runMain envSecret FileState.absent 0 "S" "J")).getD 4 "" =
      "Use it as:" ∧
    ¬ ∃ stmt tok : String,
        Outcome.stdoutLines (runMain envSecret FileState.absent 0 "S" "J") =
          [stmt, "", tok, "", "Authorization: Bearer " ++ tok] := by
  refine ⟨rfl, rfl, ?_⟩
  rintro ⟨stmt, tok, h⟩
  have h6 : (Outcome.stdoutLines (runMain envSecret FileState.absent 0 "S" "J")).length = 6 :=
    rfl
  rw [h] at h6
  simp at h6

/-- C9 (amended): on every successful invocation the stdout report is
exactly: the lifetime-validity statement, a blank line, the raw token,
a blank line, the literal line `"Use it as:"`, and the
`Authorization: Bearer <token>` line; stderr is empty. -/
theorem c9_stdout_report (env : Env) (file : FileState) (now : Int) (sub jti : String)
    (code : Nat) (out err : List String)
    (h : runMain env file now sub jti = Outcome.exit code out err) (hzero : code = 0) :
    ∃ (n : Int) (tok : String),
      out = ["Generated admin JWT (valid for " ++ toString n ++ " seconds):", "",
             tok, "", "Use it as:", "Authorization: Bearer " ++ tok] ∧ err = [] := by
  subst hzero
  cases hsec : load_config_value env file "jwt_secret" with
  | error e =>
      have hr : runMain env file now sub jti = Outcome.uncaught e := by
        unfold runMain; rw [hsec]
      rw [hr] at h
      simp at h
  | ok o =>
      cases o with
      | none =>
          have hr : runMain env file now sub jti = Outcome.exit 1 [] [secretErrMsg] := by
            unfold runMain; rw [hsec]
          rw [hr] at h
          simp at h
      | some s =>
          by_cases hse : s = ""
          · have hr : runMain env file now sub jti = Outcome.exit 1 [] [secretErrMsg] := by
              unfold runMain; rw [hsec]; simp [hse]
            rw [hr] at h
            simp at h
          · have hr := runMain_success env file now sub jti s hsec hse
            rw [hr] at h
            simp only [Outcome.exit.injEq, true_and] at h
            exact ⟨resolvedLifetime env file,
              issue s sub jti now (now + resolvedLifetime env file),
              h.1.symm, h.2.symm⟩

/-- Witness for C9 (amended) at a successful concrete run — with an
environment-provided secret and a malformed config file, exhibiting
that such runs are exit-0 runs covered by the theorem. -/
theorem c9_stdout_report_witness :
    runMain envSecret FileState.malformed 0 "S" "J" =
      Outcome.exit 0
        (Outcome.stdoutLines (runMain envSecret FileState.malformed 0 "S" "J")) [] ∧
    ∃ (n : Int) (tok : String),
      Outcome.stdoutLines (runMain envSecret FileState.malformed 0 "S" "J") =
        ["Generated admin JWT (valid for " ++ toString n ++ " seconds):", "",
         tok, "", "Use it as:", "Authorization: Bearer " ++ tok] ∧ ([] : List String) = [] :=
  ⟨rfl,
   c9_stdout_report envSecret FileState.malformed 0 "S" "J" 0
     (Outcome.stdoutLines (runMain envSecret FileState.malformed 0 "S" "J")) [] rfl rfl⟩

